import Mathlib

/-!
Shallow embedding of the configuration store of `hpcflow` (`hpcflow/config.py`).

Python values that can live in the configuration file are modelled by `Value`
(YAML/JSON scalars, lists and mappings).  Python dictionaries with string keys
(the per-profile `config` mapping, the meta-data mapping, the round-trip
subtree) are modelled as association lists with Python dict semantics:
assignment updates an existing binding in place and otherwise appends, `del`
removes the binding, lookup returns the bound value.  Equality of values is
structural, matching Python `==` on scalars and lists.

External collaborators are parameters of the operations:
  * the valida schema set is a list of Boolean predicates on the `config`
    mapping (`validate` in the source is `Schema.validate` + `is_valid`);
  * `json.loads` is a function `String → Option Value` (`none` = parse error);
  * success of the atomic file replacement (`_update_config_file`) is a
    Boolean oracle `writeOk`.

Each raised exception class that appears in the source is a distinct
constructor of `ConfigError`; uncaught Python `KeyError` / `TypeError` get
their own constructors.
-/

namespace HpcflowConfig

/-- A YAML/JSON-compatible Python value. -/
inductive Value where
  | vnull
  | vbool (b : Bool)
  | vint  (n : Int)
  | vstr  (s : String)
  | vlist (xs : List Value)
  | vmap  (m : List (Value × Value))
deriving Repr

mutual

/-- Python `==` on values (structural; order-sensitive on mappings, which the
claims never exercise). -/
def Value.beq : Value → Value → Bool
  | .vnull, .vnull => true
  | .vbool a, .vbool b => a == b
  | .vint a, .vint b => a == b
  | .vstr a, .vstr b => a == b
  | .vlist xs, .vlist ys => Value.listBeq xs ys
  | .vmap m₁, .vmap m₂ => Value.mapBeq m₁ m₂
  | _, _ => false

/-- Python `==` on lists of values, elementwise. -/
def Value.listBeq : List Value → List Value → Bool
  | [], [] => true
  | x :: xs, y :: ys => Value.beq x y && Value.listBeq xs ys
  | _, _ => false

/-- Python `==` on mapping entries, entrywise. -/
def Value.mapBeq : List (Value × Value) → List (Value × Value) → Bool
  | [], [] => true
  | (k₁, v₁) :: m₁, (k₂, v₂) :: m₂ =>
      Value.beq k₁ k₂ && Value.beq v₁ v₂ && Value.mapBeq m₁ m₂
  | _, _ => false

end

/-- Exception classes raised (or propagated uncaught) by `config.py`.
Every distinct Python exception class imported and raised in the source is a
distinct constructor. -/
inductive ConfigError where
  | configUnknownItem
  | configChangeInvalid
  | configChangeInvalidJSON
  | configChangeValidation
  | configChangeTypeInvalid
  | configChangePopIndex (length : Nat) (index : Int)
  | configChangeFileUpdate
  | configFileInvocationIncompatible
  | pyKeyError
  | pyTypeError
  | pyNameError
deriving Repr, DecidableEq

/-- A Python dict with string keys, as an association list. -/
abbrev Dict := List (String × Value)

/-- Python `d[k]` / `d.get(k)` lookup. -/
def dget : Dict → String → Option Value
  | [], _ => none
  | (k, v) :: rest, key => if k = key then some v else dget rest key

/-- Python `d[k] = v`: update the existing binding in place, else append. -/
def dset : Dict → String → Value → Dict
  | [], key, v => [(key, v)]
  | (k, w) :: rest, key, v =>
      if k = key then (k, v) :: rest else (k, w) :: dset rest key v

/-- Python `del d[k]`: remove the binding for `k` (no-op when absent).  A dict
never holds two bindings of one key, so removing every binding of `k` from the
association list coincides with Python's removal of the unique one. -/
def ddel : Dict → String → Dict
  | [], _ => []
  | (k, w) :: rest, key =>
      if k = key then ddel rest key else (k, w) :: ddel rest key

/-- Lookup in a `Value.vmap` (Python dict with arbitrary keys, compared by
`==`). -/
def mget : List (Value × Value) → Value → Option Value
  | [], _ => none
  | (k, v) :: rest, key => if Value.beq k key then some v else mget rest key

/-- Removal from a `Value.vmap` (as with `ddel`, dict keys are unique). -/
def mdel : List (Value × Value) → Value → List (Value × Value)
  | [], _ => []
  | (k, w) :: rest, key =>
      if Value.beq k key then mdel rest key else (k, w) :: mdel rest key

/-- Two dicts are equivalent when every lookup agrees (Python dict equality
ignores insertion order). -/
def DictEqv (d₁ d₂ : Dict) : Prop := ∀ k, dget d₁ k = dget d₂ k

/-- A schema set: each schema is a predicate on a candidate `config` mapping
(`Schema.validate` + `ValidatedData.is_valid` from valida, an external
library). -/
abbrev SchemaSet := List (Dict → Bool)

/-- Model of `ConfigLoader._validate_configured_data`: succeeds iff every
schema in the set accepts the data. -/
def validateConfiguredData (schemas : SchemaSet) (d : Dict) : Bool :=
  schemas.all (fun f => f d)

/-- The mutable state owned by the `ConfigLoader` singleton that the mutation
operations touch: `_configurable_keys`, `_meta_data`, `_configured_data`, the
active-profile `config` subtree of `_cfg_file_dat_rt`, and (as an abstraction
of the on-disk file) the last successfully persisted content of that subtree. -/
structure Store where
  configurableKeys : List String
  metaData   : Dict
  configured : Dict
  rt         : Dict
  persisted  : Dict
deriving Repr

/-- Result of a Python call: normal return or raised exception, each with the
post-call state of the singleton. -/
inductive PyResult (α : Type) where
  | ok  (st : Store) (v : α)
  | err (st : Store) (e : ConfigError)
deriving Repr

/-- Model of `ConfigLoader.__getattr__` (also `ConfigLoader.get`, which is
`getattr(self, name)`): meta-data first, then configurable keys with a
`dict.get` lookup (`None` when absent), else `ConfigUnknownItemError`. -/
def get_attr (s : Store) (name : String) : Except ConfigError Value :=
  match dget s.metaData name with
  | some v => .ok v
  | none =>
    if name ∈ s.configurableKeys then .ok ((dget s.configured name).getD .vnull)
    else .error .configUnknownItem

/-- Model of `ConfigLoader._modify_if_valid`: deep-copy the configured data, read
`dat_copy[name]` (an uncaught `KeyError` when the key is absent), apply the
change to the copy, validate, then update the live mapping and the round-trip
subtree, write the file, and on write failure reinstate the old value in both
and raise `ConfigChangeFileUpdateError`. -/
def modify_if_valid (schemas : SchemaSet) (writeOk : Bool) (s : Store)
    (name : String) (new_value : Value) (is_unset : Bool) : PyResult Value :=
  match dget s.configured name with
  | none => .err s .pyKeyError
  | some old_value =>
    let dat_copy := if is_unset then ddel s.configured name
                    else dset s.configured name new_value
    if validateConfiguredData schemas dat_copy then
      let s₁ : Store :=
        { s with
          configured := dat_copy
          rt := if is_unset then ddel s.rt name else dset s.rt name new_value }
      if writeOk then
        .ok { s₁ with persisted := s₁.rt }
          (if is_unset then .vbool true else new_value)
      else
        .err
          { s₁ with
            configured := dset s₁.configured name old_value
            rt := dset s₁.rt name old_value }
          .configChangeFileUpdate
    else .err s .configChangeValidation

/-- Model of `ConfigLoader._set_value`: warn and return `None` when the new value
equals the old one, else `_modify_if_valid`. -/
def set_value_inner (schemas : SchemaSet) (writeOk : Bool) (s : Store)
    (name : String) (old_value new_value : Value) : PyResult (Option Value) :=
  if Value.beq old_value new_value then .ok s none
  else
    match modify_if_valid schemas writeOk s name new_value false with
    | .ok st v => .ok st (some v)
    | .err st e => .err st e

/-- Model of `ConfigLoader._unset_value`: warn and return `None` when the key is not in
`_configured_data`, else `_modify_if_valid` with `is_unset=True`. -/
def unset_value_inner (schemas : SchemaSet) (writeOk : Bool) (s : Store)
    (name : String) : PyResult (Option Value) :=
  match dget s.configured name with
  | none => .ok s none
  | some _ =>
    match modify_if_valid schemas writeOk s name .vnull true with
    | .ok st v => .ok st (some v)
    | .err st e => .err st e

/-- The `is_json` step of `_prepare_modify`: `json.loads(new_value)` via the
external decoder `jdec` (`ConfigChangeInvalidJSONError` on a parse failure;
Python `json.loads` raises `TypeError` on a non-string argument). -/
def decodeNewValue (jdec : String → Option Value) (value : Value)
    (is_json : Bool) : Except ConfigError Value :=
  if is_json then
    match value with
    | .vstr str =>
      match jdec str with
      | some v => .ok v
      | none => .error .configChangeInvalidJSON
    | _ => .error .pyTypeError
  else .ok value

/-- Model of `ConfigLoader._prepare_modify`: allow-list check
(`ConfigChangeInvalidError` when the name is not configurable), optional JSON
decode, then `old_value = deepcopy(self.get(name))`. -/
def prepare_modify (jdec : String → Option Value) (s : Store) (name : String)
    (value : Value) (is_json : Bool) : Except ConfigError (Value × Value) :=
  if name ∈ s.configurableKeys then
    match decodeNewValue jdec value is_json with
    | .error e => .error e
    | .ok new_value =>
      match get_attr s name with
      | .ok old_value => .ok (old_value, new_value)
      | .error e => .error e
  else .error .configChangeInvalid

/-- Model of `ConfigLoader.set_value`. -/
def set_value (schemas : SchemaSet) (jdec : String → Option Value)
    (writeOk : Bool) (s : Store) (name : String) (value : Value)
    (is_json : Bool) : PyResult (Option Value) :=
  match prepare_modify jdec s name value is_json with
  | .error e => .err s e
  | .ok (old_value, new_value) =>
      set_value_inner schemas writeOk s name old_value new_value

/-- Model of `ConfigLoader.unset_value` (`_prepare_modify` runs with its default
arguments `new_value=None`, `is_json=False`). -/
def unset_value (schemas : SchemaSet) (writeOk : Bool) (s : Store)
    (name : String) : PyResult (Option Value) :=
  match prepare_modify (fun _ => none) s name .vnull false with
  | .error e => .err s e
  | .ok _ => unset_value_inner schemas writeOk s name

/-- Model of `ConfigLoader.append_value`: `old_value + [new_value]`; Python `+` with a
list on the right raises `TypeError` (→ `ConfigChangeTypeInvalidError`) unless
the current value is itself a list. -/
def append_value (schemas : SchemaSet) (jdec : String → Option Value)
    (writeOk : Bool) (s : Store) (name : String) (value : Value)
    (is_json : Bool) : PyResult (Option Value) :=
  match prepare_modify jdec s name value is_json with
  | .error e => .err s e
  | .ok (old_value, new_value) =>
    match old_value with
    | .vlist xs =>
        set_value_inner schemas writeOk s name old_value
          (.vlist (xs ++ [new_value]))
    | _ => .err s .configChangeTypeInvalid

/-- Model of `ConfigLoader.prepend_value`: `[new_value] + old_value`, same `TypeError`
handling as `append_value`. -/
def prepend_value (schemas : SchemaSet) (jdec : String → Option Value)
    (writeOk : Bool) (s : Store) (name : String) (value : Value)
    (is_json : Bool) : PyResult (Option Value) :=
  match prepare_modify jdec s name value is_json with
  | .error e => .err s e
  | .ok (old_value, new_value) =>
    match old_value with
    | .vlist xs =>
        set_value_inner schemas writeOk s name old_value
          (.vlist (new_value :: xs))
    | _ => .err s .configChangeTypeInvalid

/-- Python `list.pop(i)` index semantics: defined for `-(len) ≤ i < len`,
where a negative `i` counts from the end; `IndexError` (`none`) otherwise. -/
def listPop (xs : List Value) (i : Int) : Option (List Value) :=
  let n : Int := (xs.length : Int)
  if 0 ≤ i ∧ i < n then
    some (xs.take i.toNat ++ xs.drop (i.toNat + 1))
  else if -n ≤ i ∧ i < 0 then
    some (xs.take (i + n).toNat ++ xs.drop ((i + n).toNat + 1))
  else none

/-- Model of `ConfigLoader.pop_value`: `new_value = deepcopy(old_value);
new_value.pop(index)`, catching `AttributeError`
(→ `ConfigChangeTypeInvalidError`, e.g. for strings, scalars and `None`) and
`IndexError` (→ `ConfigChangePopIndexError` with the current length).  A
mapping value also has a `pop` method — `dict.pop(index)` — which removes the
entry keyed by `index` when present and otherwise raises an uncaught
`KeyError`. -/
def pop_value (schemas : SchemaSet) (writeOk : Bool) (s : Store)
    (name : String) (index : Int) : PyResult (Option Value) :=
  match prepare_modify (fun _ => none) s name .vnull false with
  | .error e => .err s e
  | .ok (old_value, _) =>
    match old_value with
    | .vlist xs =>
      match listPop xs index with
      | some ys => set_value_inner schemas writeOk s name old_value (.vlist ys)
      | none => .err s (.configChangePopIndex xs.length index)
    | .vmap m =>
      match mget m (.vint index) with
      | some _ =>
          set_value_inner schemas writeOk s name old_value
            (.vmap (mdel m (.vint index)))
      | none => .err s .pyKeyError
    | _ => .err s .configChangeTypeInvalid

/-- A configuration profile as far as invocation selection is concerned: its
`invocation.match` mapping and its `config` mapping. -/
structure Profile where
  matchMap : Dict
  config   : Dict
deriving Repr

/-- Runtime information: named attributes of the `RUN_TIME_INFO` snapshot
(`hpcflow/runtime.py`), read via `getattr`. -/
abbrev RunTimeInfo := String → Value

/-- One profile's match test: every `(attribute, expected)` pair of its
`match` mapping must agree with the runtime attribute (an empty mapping
matches unconditionally). -/
def profileMatches (rti : RunTimeInfo) (p : Profile) : Bool :=
  p.matchMap.all (fun kv => Value.beq (rti kv.fst) kv.snd)

/-- Outcome of the profile-selection loop in `ConfigLoader.__init__`. -/
inductive SelectOutcome where
  | selected (name : String) (p : Profile)
  | incompatible
  | nameError
deriving Repr

/-- The body of the selection loop: first matching profile wins; when the
last iteration finishes without a match, `is_match` is `False` and the check
after the loop raises `ConfigFileInvocationIncompatibleError`. -/
def selectLoop (rti : RunTimeInfo) : List (String × Profile) → SelectOutcome
  | [] => .incompatible
  | (n, p) :: rest =>
      if profileMatches rti p then .selected n p else selectLoop rti rest

/-- Profile selection in `ConfigLoader.__init__` (lines 132–149): iterate
`configs` in document order; `is_match` is assigned only inside the loop, so
when `configs` is empty the test `if not is_match` after the loop reads an
unbound local and raises Python `NameError` instead of
`ConfigFileInvocationIncompatibleError`. -/
def selectConfig (rti : RunTimeInfo) (profiles : List (String × Profile)) :
    SelectOutcome :=
  match profiles with
  | [] => .nameError
  | _ :: _ => selectLoop rti profiles

/-- Python truthiness of the `config_dir` argument: `None` and `""` are
falsy. -/
def dirArgFalsy : Option String → Bool
  | none => true
  | some s => s == ""

/-- The `pathlib.Path` normalisation relevant here: `Path("")` is
`Path(".")`. -/
def pathOf (s : String) : String := if s = "" then "." else s

/-- Model of `Path.expanduser`: replace a leading `~` component with the user's home
directory. -/
def expanduser (home s : String) : String :=
  if s = "~" then home
  else if s.toList.take 2 = ['~', '/'] then home ++ String.mk (s.toList.drop 1)
  else s

/-- Model of `ConfigLoader._resolve_config_dir`: when the explicit argument is falsy
(`None` or `""`), take `os.getenv(CONFIG_DIR_ENV_VAR, "~/.hpcflow")` as a path
and expand the user home; otherwise take the explicit argument as a path
(without user-home expansion).  Then attempt `mkdir` exactly when the chosen
path `is_dir()` test fails, and return the path made absolute.  `isDir` and
`abs` are file-system oracles; `envVal` is the environment variable's value
(`none` when unset).  Returns the resolved absolute path and whether `mkdir`
was attempted. -/
def resolve_config_dir (isDir : String → Bool) (abs : String → String)
    (envVal : Option String) (home : String) (config_dir : Option String) :
    String × Bool :=
  let p :=
    if dirArgFalsy config_dir then
      expanduser home (pathOf (envVal.getD "~/.hpcflow"))
    else pathOf (config_dir.getD "")
  (abs p, !isDir p)

/-- The state of the singleton after a call, whether it returned or raised. -/
def PyResult.state : PyResult α → Store
  | .ok st _ => st
  | .err st _ => st

/-- Value of `self.get(name)` for a configurable `name`: the meta-data value when the
name is also a meta-data key, else the configured value (`None` when
absent). -/
def currentValue (s : Store) (name : String) : Value :=
  match dget s.metaData name with
  | some v => v
  | none => (dget s.configured name).getD .vnull

/-- The post-failure store agrees with the pre-call store: same key list and
meta-data, same in-memory mapping and round-trip subtree (as dicts), and the
persisted file content untouched. -/
def RevertedTo (s₂ s : Store) : Prop :=
  s₂.configurableKeys = s.configurableKeys ∧ s₂.metaData = s.metaData ∧
    DictEqv s₂.configured s.configured ∧ DictEqv s₂.rt s.rt ∧
    s₂.persisted = s.persisted

/-- The consistency invariant of the store: the in-memory mapping, the
round-trip subtree and the last persisted content agree as dicts. -/
def StoreInv (s : Store) : Prop :=
  DictEqv s.configured s.rt ∧ DictEqv s.configured s.persisted

/-- A schema set for the concrete examples: one schema accepting
everything. -/
def trivialSchemas : SchemaSet := [fun _ => true]

/-- A JSON decoder for examples in which `is_json` is `False` (never
consulted). -/
def noJson : String → Option Value := fun _ => none

/-- The `config` mapping of the concrete example store. -/
def sampleConfig : Dict :=
  [("log_directory", .vstr "logs"),
   ("environment_sources", .vlist [.vint 1, .vint 2, .vint 3]),
   ("machines", .vmap [(.vint 0, .vstr "zero")])]

/-- A concrete loaded store with a string-valued, a list-valued and a
mapping-valued configurable key. -/
def sampleStore : Store :=
  { configurableKeys := ["log_directory", "environment_sources", "machines"]
    metaData := [("config_invocation_key", .vstr "default")]
    configured := sampleConfig
    rt := sampleConfig
    persisted := sampleConfig }

/-- A store in which the configurable key `task_schema_sources` is absent
from the active profile's `config` mapping (the state reached, for example,
right after `unset_value("task_schema_sources")`). -/
def absentKeyStore : Store :=
  { configurableKeys := ["log_directory", "task_schema_sources"]
    metaData := []
    configured := [("log_directory", .vstr "logs")]
    rt := [("log_directory", .vstr "logs")]
    persisted := [("log_directory", .vstr "logs")] }

theorem dget_dset (d : Dict) (key key' : String) (v : Value) :
    dget (dset d key v) key' = if key = key' then some v else dget d key' := by
  induction d with
  | nil => simp [dget, dset]
  | cons kw rest ih =>
    obtain ⟨k, w⟩ := kw
    by_cases hk : k = key
    · subst hk
      by_cases hk' : k = key' <;> simp [dget, dset, hk']
    · by_cases hk' : k = key'
      · subst hk'
        simp [dget, dset, hk, Ne.symm hk]
      · simp [dget, dset, hk, hk', ih]

theorem dget_ddel (d : Dict) (key key' : String) :
    dget (ddel d key) key' = if key = key' then none else dget d key' := by
  induction d with
  | nil => simp [dget, ddel]
  | cons kw rest ih =>
    obtain ⟨k, w⟩ := kw
    by_cases hk : k = key
    · subst hk
      have h1 : ddel ((k, w) :: rest) k = ddel rest k := by simp [ddel]
      rw [h1, ih]
      by_cases hk' : k = key' <;> simp [dget, hk']
    · by_cases hk' : k = key'
      · subst hk'
        simp [dget, ddel, hk, Ne.symm hk, ih]
      · simp [dget, ddel, hk, hk', ih]

theorem dictEqv_refl (d : Dict) : DictEqv d d := fun _ => rfl

theorem DictEqv.symm {d₁ d₂ : Dict} (h : DictEqv d₁ d₂) : DictEqv d₂ d₁ :=
  fun k => (h k).symm

theorem DictEqv.trans {d₁ d₂ d₃ : Dict} (h₁ : DictEqv d₁ d₂)
    (h₂ : DictEqv d₂ d₃) : DictEqv d₁ d₃ :=
  fun k => (h₁ k).trans (h₂ k)

theorem DictEqv.dset_congr {d₁ d₂ : Dict} (h : DictEqv d₁ d₂) (key : String)
    (v : Value) : DictEqv (dset d₁ key v) (dset d₂ key v) := by
  intro k
  rw [dget_dset, dget_dset, h k]

theorem DictEqv.ddel_congr {d₁ d₂ : Dict} (h : DictEqv d₁ d₂) (key : String) :
    DictEqv (ddel d₁ key) (ddel d₂ key) := by
  intro k
  rw [dget_ddel, dget_ddel, h k]

/-- Setting a key back to the value it held restores the dict (as a dict). -/
theorem dset_dset_revert {d : Dict} {key : String} {old : Value}
    (h : dget d key = some old) (v : Value) :
    DictEqv (dset (dset d key v) key old) d := by
  intro k
  rw [dget_dset, dget_dset]
  by_cases hk : key = k
  · subst hk
    simp [h]
  · simp [hk]

/-- Re-adding a deleted key with the value it held restores the dict (as a
dict). -/
theorem dset_ddel_revert {d : Dict} {key : String} {old : Value}
    (h : dget d key = some old) :
    DictEqv (dset (ddel d key) key old) d := by
  intro k
  rw [dget_dset, dget_ddel]
  by_cases hk : key = k
  · subst hk
    simp [h]
  · simp [hk]

/-- Since `__getattr__` only reads the meta-data, the allow-list and the configured
dict, so it is invariant under dict-equivalent stores. -/
theorem get_attr_congr {s₂ s : Store}
    (hkeys : s₂.configurableKeys = s.configurableKeys)
    (hmeta : s₂.metaData = s.metaData)
    (hconf : DictEqv s₂.configured s.configured) (name : String) :
    get_attr s₂ name = get_attr s name := by
  unfold get_attr
  rw [hkeys, hmeta, hconf name]

/-- Preservation: `_modify_if_valid` maintains the consistency invariant, for both write
outcomes. -/
theorem modify_if_valid_inv {schemas : SchemaSet} {writeOk : Bool} {s : Store}
    {name : String} {new_value : Value} {is_unset : Bool}
    (hinv : StoreInv s) :
    StoreInv (modify_if_valid schemas writeOk s name new_value is_unset).state := by
  unfold modify_if_valid
  cases hold : dget s.configured name with
  | none => exact hinv
  | some old =>
    by_cases hval : validateConfiguredData schemas
        (if is_unset then ddel s.configured name
         else dset s.configured name new_value) = true
    · simp only [hval, if_true]
      cases writeOk with
      | true =>
        cases is_unset with
        | true =>
          exact ⟨hinv.1.ddel_congr name, hinv.1.ddel_congr name⟩
        | false =>
          exact ⟨hinv.1.dset_congr name new_value, hinv.1.dset_congr name new_value⟩
      | false =>
        cases is_unset with
        | true =>
          refine ⟨(hinv.1.ddel_congr name).dset_congr name old, ?_⟩
          exact (dset_ddel_revert hold).trans hinv.2
        | false =>
          refine ⟨(hinv.1.dset_congr name new_value).dset_congr name old, ?_⟩
          exact (dset_dset_revert hold new_value).trans hinv.2
    · simp only [if_neg hval]
      exact hinv

/-- Write-failure lemma for `_modify_if_valid`. -/
theorem modify_if_valid_write_failure {schemas : SchemaSet} {s : Store}
    {name : String} {new_value : Value} {is_unset : Bool} {s₁ : Store}
    {rv : Value}
    (hsync : dget s.rt name = dget s.configured name)
    (hok : modify_if_valid schemas true s name new_value is_unset = .ok s₁ rv) :
    ∃ s₂, modify_if_valid schemas false s name new_value is_unset
            = .err s₂ .configChangeFileUpdate ∧ RevertedTo s₂ s := by
  unfold modify_if_valid at hok ⊢
  cases hold : dget s.configured name with
  | none => rw [hold] at hok; exact absurd hok (by simp)
  | some old =>
    by_cases hval : validateConfiguredData schemas
        (if is_unset then ddel s.configured name
         else dset s.configured name new_value) = true
    · simp only [hval, if_true, Bool.false_eq_true, if_false] at hok ⊢
      refine ⟨_, rfl, rfl, rfl, ?_, ?_, rfl⟩
      · cases is_unset with
        | true => simpa using dset_ddel_revert hold
        | false => simpa using dset_dset_revert hold new_value
      · rw [hold] at hsync
        cases is_unset with
        | true => simpa using dset_ddel_revert hsync
        | false => simpa using dset_dset_revert hsync new_value
    · simp [hold, hval] at hok

/-- Write-failure lemma for `_set_value`: a call that actually modifies
(returns `some`) under a successful write instead raises
`ConfigChangeFileUpdateError` and reverts when the write fails. -/
theorem set_value_inner_write_failure {schemas : SchemaSet} {s : Store}
    {name : String} {ov nv : Value} {s₁ : Store} {rv : Value}
    (hsync : dget s.rt name = dget s.configured name)
    (hok : set_value_inner schemas true s name ov nv = .ok s₁ (some rv)) :
    ∃ s₂, set_value_inner schemas false s name ov nv
            = .err s₂ .configChangeFileUpdate ∧ RevertedTo s₂ s := by
  unfold set_value_inner at hok ⊢
  by_cases hbeq : Value.beq ov nv = true
  · simp [hbeq] at hok
  · simp only [hbeq, if_false, Bool.not_eq_true] at hok ⊢
    cases hmod : modify_if_valid schemas true s name nv false with
    | err st e => rw [hmod] at hok; simp at hok
    | ok st v =>
      rw [hmod] at hok
      obtain ⟨s₂, h2, hrev⟩ := modify_if_valid_write_failure hsync hmod
      rw [h2]
      exact ⟨s₂, rfl, hrev⟩

/-- Preservation: `_set_value` maintains the consistency invariant. -/
theorem set_value_inner_inv {schemas : SchemaSet} {writeOk : Bool} {s : Store}
    {name : String} {ov nv : Value} (hinv : StoreInv s) :
    StoreInv (set_value_inner schemas writeOk s name ov nv).state := by
  unfold set_value_inner
  by_cases hbeq : Value.beq ov nv = true
  · simp only [hbeq, if_true]
    exact hinv
  · simp only [hbeq, if_false, Bool.not_eq_true]
    have h := @modify_if_valid_inv schemas writeOk s name nv false hinv
    cases hmod : modify_if_valid schemas writeOk s name nv false with
    | ok st v => rw [hmod] at h; exact h
    | err st e => rw [hmod] at h; exact h

/-- A reverted store reports every `get` identically to the pre-call store. -/
theorem RevertedTo.get_attr_eq {s₂ s : Store} (h : RevertedTo s₂ s)
    (name : String) : get_attr s₂ name = get_attr s name :=
  get_attr_congr h.1 h.2.1 h.2.2.1 name

/-- C1: for each of the five mutators (set, unset, append, prepend, pop), if
the call under a succeeding write performs a real modification (returns a
`some` result), then the identical call under a failing write raises
`ConfigChangeFileUpdateError`, the in-memory mapping and the round-trip
subtree are reverted to their pre-call values (as dicts), the persisted file
content is untouched, and `get(name)` afterwards returns the pre-call value.
The hypothesis `hsync` states that the round-trip subtree agrees with the
in-memory mapping at `name` before the call, which holds in every reachable
state (claim C5). -/
theorem claim_C1_rollback_on_write_failure (schemas : SchemaSet) (jdec : String → Option Value)
    (s : Store) (name : String) (value : Value) (is_json : Bool) (index : Int)
    (hsync : dget s.rt name = dget s.configured name) :
    (∀ s₁ rv, set_value schemas jdec true s name value is_json = .ok s₁ (some rv) →
      ∃ s₂, set_value schemas jdec false s name value is_json
              = .err s₂ .configChangeFileUpdate ∧ RevertedTo s₂ s ∧
            get_attr s₂ name = get_attr s name) ∧
    (∀ s₁ rv, unset_value schemas true s name = .ok s₁ (some rv) →
      ∃ s₂, unset_value schemas false s name
              = .err s₂ .configChangeFileUpdate ∧ RevertedTo s₂ s ∧
            get_attr s₂ name = get_attr s name) ∧
    (∀ s₁ rv, append_value schemas jdec true s name value is_json = .ok s₁ (some rv) →
      ∃ s₂, append_value schemas jdec false s name value is_json
              = .err s₂ .configChangeFileUpdate ∧ RevertedTo s₂ s ∧
            get_attr s₂ name = get_attr s name) ∧
    (∀ s₁ rv, prepend_value schemas jdec true s name value is_json = .ok s₁ (some rv) →
      ∃ s₂, prepend_value schemas jdec false s name value is_json
              = .err s₂ .configChangeFileUpdate ∧ RevertedTo s₂ s ∧
            get_attr s₂ name = get_attr s name) ∧
    (∀ s₁ rv, pop_value schemas true s name index = .ok s₁ (some rv) →
      ∃ s₂, pop_value schemas false s name index
              = .err s₂ .configChangeFileUpdate ∧ RevertedTo s₂ s ∧
            get_attr s₂ name = get_attr s name) := by
  refine ⟨?_, ?_, ?_, ?_, ?_⟩
  · intro s₁ rv hok
    unfold set_value at hok ⊢
    cases hpm : prepare_modify jdec s name value is_json with
    | error e => simp [hpm] at hok
    | ok p =>
      obtain ⟨ov, nv⟩ := p
      simp only [hpm] at hok
      obtain ⟨s₂, h2, hrev⟩ := set_value_inner_write_failure hsync hok
      exact ⟨s₂, h2, hrev, hrev.get_attr_eq name⟩
  · intro s₁ rv hok
    unfold unset_value at hok ⊢
    cases hpm : prepare_modify (fun _ => none) s name .vnull false with
    | error e => simp [hpm] at hok
    | ok p =>
      simp only [hpm] at hok
      unfold unset_value_inner at hok ⊢
      cases hold : dget s.configured name with
      | none => simp [hold] at hok
      | some old =>
        simp only [hold] at hok
        cases hmod : modify_if_valid schemas true s name .vnull true with
        | err st e => simp [hmod] at hok
        | ok st v =>
          obtain ⟨s₂, h2, hrev⟩ := modify_if_valid_write_failure hsync hmod
          rw [h2]
          exact ⟨s₂, rfl, hrev, hrev.get_attr_eq name⟩
  · intro s₁ rv hok
    unfold append_value at hok ⊢
    cases hpm : prepare_modify jdec s name value is_json with
    | error e => simp [hpm] at hok
    | ok p =>
      obtain ⟨ov, nv⟩ := p
      simp only [hpm] at hok
      cases ov with
      | vlist xs =>
        obtain ⟨s₂, h2, hrev⟩ := set_value_inner_write_failure hsync hok
        exact ⟨s₂, h2, hrev, hrev.get_attr_eq name⟩
      | vnull => simp at hok
      | vbool b => simp at hok
      | vint n => simp at hok
      | vstr str => simp at hok
      | vmap m => simp at hok
  · intro s₁ rv hok
    unfold prepend_value at hok ⊢
    cases hpm : prepare_modify jdec s name value is_json with
    | error e => simp [hpm] at hok
    | ok p =>
      obtain ⟨ov, nv⟩ := p
      simp only [hpm] at hok
      cases ov with
      | vlist xs =>
        obtain ⟨s₂, h2, hrev⟩ := set_value_inner_write_failure hsync hok
        exact ⟨s₂, h2, hrev, hrev.get_attr_eq name⟩
      | vnull => simp at hok
      | vbool b => simp at hok
      | vint n => simp at hok
      | vstr str => simp at hok
      | vmap m => simp at hok
  · intro s₁ rv hok
    unfold pop_value at hok ⊢
    cases hpm : prepare_modify (fun _ => none) s name .vnull false with
    | error e => simp [hpm] at hok
    | ok p =>
      obtain ⟨ov, nv0⟩ := p
      simp only [hpm] at hok
      cases ov with
      | vlist xs =>
        cases hlp : listPop xs index with
        | some ys =>
          simp only [hlp] at hok
          obtain ⟨s₂, h2, hrev⟩ := set_value_inner_write_failure hsync hok
          simp only [hlp]
          exact ⟨s₂, h2, hrev, hrev.get_attr_eq name⟩
        | none => simp [hlp] at hok
      | vmap m =>
        cases hmg : mget m (.vint index) with
        | some v =>
          simp only [hmg] at hok
          obtain ⟨s₂, h2, hrev⟩ := set_value_inner_write_failure hsync hok
          simp only [hmg]
          exact ⟨s₂, h2, hrev, hrev.get_attr_eq name⟩
        | none => simp [hmg] at hok
      | vnull => simp at hok
      | vbool b => simp at hok
      | vint n => simp at hok
      | vstr str => simp at hok

/-- C5: every operation of the store — with either write outcome, hence
successful or failed — preserves the consistency invariant: the in-memory
mapping, the round-trip subtree and the last successfully persisted content
agree as dicts after the call whenever they did before. -/
theorem claim_C5_state_consistency (schemas : SchemaSet) (jdec : String → Option Value)
    (writeOk : Bool) (s : Store) (name : String) (value : Value)
    (is_json : Bool) (index : Int) (hinv : StoreInv s) :
    StoreInv (set_value schemas jdec writeOk s name value is_json).state ∧
    StoreInv (unset_value schemas writeOk s name).state ∧
    StoreInv (append_value schemas jdec writeOk s name value is_json).state ∧
    StoreInv (prepend_value schemas jdec writeOk s name value is_json).state ∧
    StoreInv (pop_value schemas writeOk s name index).state := by
  refine ⟨?_, ?_, ?_, ?_, ?_⟩
  · unfold set_value
    cases hpm : prepare_modify jdec s name value is_json with
    | error e => exact hinv
    | ok p =>
      obtain ⟨ov, nv⟩ := p
      exact set_value_inner_inv hinv
  · unfold unset_value
    cases hpm : prepare_modify (fun _ => none) s name .vnull false with
    | error e => exact hinv
    | ok p =>
      unfold unset_value_inner
      cases hold : dget s.configured name with
      | none => exact hinv
      | some old =>
        have h := @modify_if_valid_inv schemas writeOk s name Value.vnull true hinv
        cases hmod : modify_if_valid schemas writeOk s name .vnull true with
        | ok st v => rw [hmod] at h; exact h
        | err st e => rw [hmod] at h; exact h
  · unfold append_value
    cases hpm : prepare_modify jdec s name value is_json with
    | error e => exact hinv
    | ok p =>
      obtain ⟨ov, nv⟩ := p
      cases ov with
      | vlist xs => exact set_value_inner_inv hinv
      | vnull => exact hinv
      | vbool b => exact hinv
      | vint n => exact hinv
      | vstr str => exact hinv
      | vmap m => exact hinv
  · unfold prepend_value
    cases hpm : prepare_modify jdec s name value is_json with
    | error e => exact hinv
    | ok p =>
      obtain ⟨ov, nv⟩ := p
      cases ov with
      | vlist xs => exact set_value_inner_inv hinv
      | vnull => exact hinv
      | vbool b => exact hinv
      | vint n => exact hinv
      | vstr str => exact hinv
      | vmap m => exact hinv
  · unfold pop_value
    cases hpm : prepare_modify (fun _ => none) s name .vnull false with
    | error e => exact hinv
    | ok p =>
      obtain ⟨ov, nv0⟩ := p
      cases ov with
      | vlist xs =>
        dsimp only
        cases hlp : listPop xs index with
        | some ys => exact set_value_inner_inv hinv
        | none => exact hinv
      | vmap m =>
        dsimp only
        cases hmg : mget m (.vint index) with
        | some v => exact set_value_inner_inv hinv
        | none => exact hinv
      | vnull => exact hinv
      | vbool b => exact hinv
      | vint n => exact hinv
      | vstr str => exact hinv

/-- The selection loop computes the first matching profile in document order
(`List.find?` is the specification-side first-match), and reports
incompatibility when the (non-empty) list holds no match. -/
theorem selectLoop_eq_find (rti : RunTimeInfo) (ps : List (String × Profile)) :
    selectLoop rti ps =
      match ps.find? (fun np => profileMatches rti np.snd) with
      | some np => .selected np.fst np.snd
      | none => .incompatible := by
  induction ps with
  | nil => rfl
  | cons hd tl ih =>
    obtain ⟨n, p⟩ := hd
    by_cases h : profileMatches rti p = true
    · simp [selectLoop, List.find?, h]
    · simp [selectLoop, List.find?, h, ih]

/-- C2 (amended): a profile with an empty `match` mapping matches
unconditionally, and selection returns the first matching profile in document
order; when the sequence is non-empty and no profile matches it fails with
`ConfigFileInvocationIncompatibleError`; when the sequence is empty the `if
not is_match` test after the loop reads an unbound local and the process
crashes with `NameError` instead. -/
theorem claim_C2_first_match_selection (rti : RunTimeInfo)
    (profiles : List (String × Profile)) :
    (∀ cfg, profileMatches rti { matchMap := [], config := cfg } = true) ∧
    selectConfig rti profiles =
      match profiles, profiles.find? (fun np => profileMatches rti np.snd) with
      | [], _ => .nameError
      | _ :: _, some np => .selected np.fst np.snd
      | _ :: _, none => .incompatible := by
  constructor
  · intro cfg
    rfl
  · cases profiles with
    | nil => rfl
    | cons hd tl =>
      have h := selectLoop_eq_find rti (hd :: tl)
      unfold selectConfig
      rw [h]
      cases (hd :: tl).find? (fun np => profileMatches rti np.snd) <;> rfl

/-- C2 counterexample: with an empty `configs` mapping the selection does not
raise `ConfigFileInvocationIncompatibleError` (the claimed
`NoMatchingInvocationError`); it crashes with Python `NameError` because
`is_match` was never assigned. -/
theorem claim_C2_counterexample :
    selectConfig (fun _ => .vnull) [] = .nameError ∧
    SelectOutcome.nameError ≠ SelectOutcome.incompatible :=
  ⟨rfl, fun h => SelectOutcome.noConfusion h⟩

/-- C3 (code bug): `set_value` on the configurable key
`task_schema_sources`, absent from the active profile's mapping, crashes with
an uncaught Python `KeyError` at `old_value = dat_copy[name]`
(config.py line 319) instead of validating and applying the change as the
claim states. -/
theorem claim_C3_absent_key_keyerror :
    set_value trivialSchemas noJson true absentKeyStore "task_schema_sources"
        (.vstr "x") false
      = .err absentKeyStore .pyKeyError ∧
    ConfigError.pyKeyError ≠ ConfigError.configChangeValidation ∧
    ConfigError.pyKeyError ≠ ConfigError.configChangeFileUpdate :=
  ⟨rfl, by decide, by decide⟩

/-- C4 (amended): on a name outside the allow-list, `get` raises
`ConfigUnknownItemError` (when the name is not meta-data either), while
`set_value` and `unset_value` raise `ConfigChangeInvalidError` — a different
exception class — and in each case the store state is unchanged. -/
theorem claim_C4_unknown_name_errors (schemas : SchemaSet)
    (jdec : String → Option Value) (writeOk : Bool) (s : Store) (name : String)
    (value : Value) (is_json : Bool) (hk : name ∉ s.configurableKeys) :
    (dget s.metaData name = none →
        get_attr s name = .error .configUnknownItem) ∧
    set_value schemas jdec writeOk s name value is_json
        = .err s .configChangeInvalid ∧
    unset_value schemas writeOk s name = .err s .configChangeInvalid := by
  refine ⟨?_, ?_, ?_⟩
  · intro hm
    unfold get_attr
    rw [hm]
    simp [hk]
  · unfold set_value prepare_modify
    simp [hk]
  · unfold unset_value prepare_modify
    simp [hk]

/-- C4 witness: the amended statement at the concrete unknown name "oops". -/
theorem claim_C4_unknown_name_errors_witness :
    (dget sampleStore.metaData "oops" = none →
        get_attr sampleStore "oops" = .error .configUnknownItem) ∧
    set_value trivialSchemas noJson true sampleStore "oops" (.vint 1) false
        = .err sampleStore .configChangeInvalid ∧
    unset_value trivialSchemas true sampleStore "oops"
        = .err sampleStore .configChangeInvalid :=
  claim_C4_unknown_name_errors trivialSchemas noJson true sampleStore "oops"
    (.vint 1) false (by decide)

/-- C4 counterexample: the three operations do not fail with one and the same
error kind: `get` raises `ConfigUnknownItemError` but `set_value` and
`unset_value` raise `ConfigChangeInvalidError`. -/
theorem claim_C4_counterexample :
    get_attr sampleStore "nope" = .error .configUnknownItem ∧
    set_value trivialSchemas noJson true sampleStore "nope" (.vstr "x") false
        = .err sampleStore .configChangeInvalid ∧
    unset_value trivialSchemas true sampleStore "nope"
        = .err sampleStore .configChangeInvalid ∧
    ConfigError.configChangeInvalid ≠ ConfigError.configUnknownItem :=
  ⟨rfl, rfl, rfl, by decide⟩

/-- C10: `get` on a configurable key that is absent from the active profile's
mapping (and is not meta-data) returns `None` rather than raising; `get`
raises `ConfigUnknownItemError` exactly when the name is neither a meta-data
key nor a configurable key. -/
theorem claim_C10_get_absent_returns_none (s : Store) (name : String) :
    (dget s.metaData name = none → name ∈ s.configurableKeys →
       dget s.configured name = none → get_attr s name = .ok .vnull) ∧
    (get_attr s name = .error .configUnknownItem ↔
       dget s.metaData name = none ∧ name ∉ s.configurableKeys) := by
  unfold get_attr
  cases hm : dget s.metaData name with
  | some v =>
    constructor
    · intro h
      exact absurd h (by simp)
    · simp
  | none =>
    by_cases hk : name ∈ s.configurableKeys
    · constructor
      · intro _ _ hc
        rw [hc]
        simp [hk]
      · simp [hk]
    · constructor
      · intro _ hkk
        exact absurd hkk hk
      · simp [hk]

/-- C10 witness: the statement at a concrete store whose configurable key
`task_schema_sources` is absent, and at a concrete unknown name. -/
theorem claim_C10_get_absent_returns_none_witness :
    get_attr absentKeyStore "task_schema_sources" = .ok .vnull ∧
    (get_attr absentKeyStore "nope" = .error .configUnknownItem ↔
       dget absentKeyStore.metaData "nope" = none ∧
         "nope" ∉ absentKeyStore.configurableKeys) :=
  ⟨(claim_C10_get_absent_returns_none absentKeyStore "task_schema_sources").1
      rfl (by decide) rfl,
   (claim_C10_get_absent_returns_none absentKeyStore "nope").2⟩

/-- Under the allow-list and non-meta hypotheses, `_prepare_modify` returns
the current configured value (`None` when absent) paired with the decoded new
value. -/
theorem prepare_modify_ok {jdec : String → Option Value} {s : Store}
    {name : String} {value nv : Value} {is_json : Bool}
    (hk : name ∈ s.configurableKeys) (hm : dget s.metaData name = none)
    (hdec : decodeNewValue jdec value is_json = .ok nv) :
    prepare_modify jdec s name value is_json
      = .ok ((dget s.configured name).getD .vnull, nv) := by
  unfold prepare_modify get_attr
  rw [hdec, hm]
  simp [hk]

/-- C6 (amended): `pop_value` raises `ConfigChangeTypeInvalidError` when the
current value has no `pop` method (strings, scalars, absent/`None` values);
on a list value with `index` outside `[-(len), len)` it raises
`ConfigChangePopIndexError` reporting the current length, and inside that
range it removes the indexed element and follows the shared `_set_value`
validate/apply path; on a mapping value, however, `dict.pop(index)` removes
the entry keyed by `index` when present and otherwise lets an uncaught Python
`KeyError` escape instead of raising `ConfigChangeTypeInvalidError`. -/
theorem claim_C6_pop_semantics (schemas : SchemaSet) (writeOk : Bool)
    (s : Store) (name : String) (index : Int)
    (hk : name ∈ s.configurableKeys) (hm : dget s.metaData name = none) :
    (∀ xs, (dget s.configured name).getD .vnull = .vlist xs →
       ((index < -(xs.length : Int) ∨ (xs.length : Int) ≤ index) →
          pop_value schemas writeOk s name index
            = .err s (.configChangePopIndex xs.length index)) ∧
       (∀ ys, listPop xs index = some ys →
          pop_value schemas writeOk s name index
            = set_value_inner schemas writeOk s name (.vlist xs) (.vlist ys))) ∧
    (∀ m, (dget s.configured name).getD .vnull = .vmap m →
       (mget m (.vint index) = none →
          pop_value schemas writeOk s name index = .err s .pyKeyError) ∧
       (∀ v, mget m (.vint index) = some v →
          pop_value schemas writeOk s name index
            = set_value_inner schemas writeOk s name (.vmap m)
                (.vmap (mdel m (.vint index))))) ∧
    (∀ old, (dget s.configured name).getD .vnull = old →
       (∀ xs, old ≠ .vlist xs) → (∀ m, old ≠ .vmap m) →
       pop_value schemas writeOk s name index
         = .err s .configChangeTypeInvalid) := by
  have hpm := @prepare_modify_ok (fun _ => none) s name Value.vnull Value.vnull
    false hk hm rfl
  refine ⟨?_, ?_, ?_⟩
  · intro xs hxs
    constructor
    · intro hout
      have hnone : listPop xs index = none := by
        simp only [listPop]
        rw [if_neg (by omega), if_neg (by omega)]
      unfold pop_value
      simp only [hpm, hxs, hnone]
    · intro ys hys
      unfold pop_value
      simp only [hpm, hxs, hys]
  · intro m hm2
    constructor
    · intro hno
      unfold pop_value
      simp only [hpm, hm2, hno]
    · intro v hv
      unfold pop_value
      simp only [hpm, hm2, hv]
  · intro old hold h1 h2
    unfold pop_value
    simp only [hpm, hold]

/-- C6 witness: the amended statement on the concrete store — an in-range pop
on the list key and a pop on the string-valued key. -/
theorem claim_C6_pop_semantics_witness :
    pop_value trivialSchemas true sampleStore "environment_sources" 0
      = set_value_inner trivialSchemas true sampleStore "environment_sources"
          (.vlist [.vint 1, .vint 2, .vint 3]) (.vlist [.vint 2, .vint 3]) ∧
    pop_value trivialSchemas true sampleStore "environment_sources" 5
      = .err sampleStore (.configChangePopIndex 3 5) ∧
    pop_value trivialSchemas true sampleStore "log_directory" 0
      = .err sampleStore .configChangeTypeInvalid :=
  ⟨((claim_C6_pop_semantics trivialSchemas true sampleStore
        "environment_sources" 0 (by decide) rfl).1
      [.vint 1, .vint 2, .vint 3] rfl).2 [.vint 2, .vint 3] rfl,
   ((claim_C6_pop_semantics trivialSchemas true sampleStore
        "environment_sources" 5 (by decide) rfl).1
      [.vint 1, .vint 2, .vint 3] rfl).1 (by decide),
   (claim_C6_pop_semantics trivialSchemas true sampleStore
        "log_directory" 0 (by decide) rfl).2.2 (.vstr "logs") rfl
      (fun xs h => Value.noConfusion h) (fun m h => Value.noConfusion h)⟩

/-- C6 counterexample: on the mapping-valued key `machines`,
`pop_value(name, 5)` does not raise `ConfigChangeTypeInvalidError` as the
claim states for every non-list value — `dict.pop(5)` raises an uncaught
Python `KeyError`. -/
theorem claim_C6_counterexample :
    pop_value trivialSchemas true sampleStore "machines" 5
      = .err sampleStore .pyKeyError ∧
    ConfigError.pyKeyError ≠ ConfigError.configChangeTypeInvalid :=
  ⟨rfl, by decide⟩

/-- C7: with a list-valued current value `old`, `append_value` builds
`old ++ [new]` and `prepend_value` builds `[new] ++ old`, each handed to the
shared `_set_value` validate/apply path; with any non-list current value both
raise `ConfigChangeTypeInvalidError` (Python `+` with a list) and leave the
state unchanged. -/
theorem claim_C7_append_prepend (schemas : SchemaSet)
    (jdec : String → Option Value) (writeOk : Bool) (s : Store) (name : String)
    (value : Value) (is_json : Bool) (nv : Value)
    (hk : name ∈ s.configurableKeys) (hm : dget s.metaData name = none)
    (hdec : decodeNewValue jdec value is_json = .ok nv) :
    (∀ xs, (dget s.configured name).getD .vnull = .vlist xs →
       append_value schemas jdec writeOk s name value is_json
         = set_value_inner schemas writeOk s name (.vlist xs)
             (.vlist (xs ++ [nv])) ∧
       prepend_value schemas jdec writeOk s name value is_json
         = set_value_inner schemas writeOk s name (.vlist xs)
             (.vlist (nv :: xs))) ∧
    (∀ old, (dget s.configured name).getD .vnull = old →
       (∀ xs, old ≠ .vlist xs) →
       append_value schemas jdec writeOk s name value is_json
           = .err s .configChangeTypeInvalid ∧
       prepend_value schemas jdec writeOk s name value is_json
           = .err s .configChangeTypeInvalid) := by
  have hpm := prepare_modify_ok hk hm hdec
  constructor
  · intro xs hxs
    constructor
    · unfold append_value
      simp only [hpm, hxs]
    · unfold prepend_value
      simp only [hpm, hxs]
  · intro old hold h1
    constructor
    · unfold append_value
      simp only [hpm, hold]
    · unfold prepend_value
      simp only [hpm, hold]

/-- C7 witness: appending and prepending on the concrete list key, and a
type failure on the string key. -/
theorem claim_C7_append_prepend_witness :
    (append_value trivialSchemas noJson true sampleStore
        "environment_sources" (.vint 4) false
      = set_value_inner trivialSchemas true sampleStore "environment_sources"
          (.vlist [.vint 1, .vint 2, .vint 3])
          (.vlist [.vint 1, .vint 2, .vint 3, .vint 4]) ∧
     prepend_value trivialSchemas noJson true sampleStore
        "environment_sources" (.vint 4) false
      = set_value_inner trivialSchemas true sampleStore "environment_sources"
          (.vlist [.vint 1, .vint 2, .vint 3])
          (.vlist [.vint 4, .vint 1, .vint 2, .vint 3])) ∧
    (append_value trivialSchemas noJson true sampleStore "log_directory"
        (.vint 4) false = .err sampleStore .configChangeTypeInvalid ∧
     prepend_value trivialSchemas noJson true sampleStore "log_directory"
        (.vint 4) false = .err sampleStore .configChangeTypeInvalid) :=
  ⟨(claim_C7_append_prepend trivialSchemas noJson true sampleStore
        "environment_sources" (.vint 4) false (.vint 4) (by decide) rfl rfl).1
      [.vint 1, .vint 2, .vint 3] rfl,
   (claim_C7_append_prepend trivialSchemas noJson true sampleStore
        "log_directory" (.vint 4) false (.vint 4) (by decide) rfl rfl).2
      (.vstr "logs") rfl (fun xs h => Value.noConfusion h)⟩

/-- C8: when the (JSON-decoded, if `is_json`) new value equals the current
value of `name`, `set_value` is a warn-and-return no-op: it returns `None`
with the store — in-memory mapping, round-trip subtree and persisted file
content — untouched, so `get(name)` afterwards is unchanged. -/
theorem claim_C8_noop_on_equal (schemas : SchemaSet)
    (jdec : String → Option Value) (writeOk : Bool) (s : Store) (name : String)
    (value : Value) (is_json : Bool) (nv : Value)
    (hk : name ∈ s.configurableKeys) (hm : dget s.metaData name = none)
    (hdec : decodeNewValue jdec value is_json = .ok nv)
    (heq : Value.beq ((dget s.configured name).getD .vnull) nv = true) :
    set_value schemas jdec writeOk s name value is_json = .ok s none := by
  have hpm := prepare_modify_ok hk hm hdec
  unfold set_value
  simp only [hpm]
  unfold set_value_inner
  rw [if_pos heq]

/-- C8 witness: re-setting `log_directory` to its current value `"logs"` is a
no-op returning `None` with the store unchanged. -/
theorem claim_C8_noop_on_equal_witness :
    set_value trivialSchemas noJson true sampleStore "log_directory"
        (.vstr "logs") false = .ok sampleStore none :=
  claim_C8_noop_on_equal trivialSchemas noJson true sampleStore
    "log_directory" (.vstr "logs") false (.vstr "logs") (by decide) rfl rfl rfl

/-- C9 (amended): a non-empty explicit directory argument is used as given
(no user-home expansion); an absent — or empty, hence falsy — argument falls
back to the environment variable's value when set and to the user-home
expansion of `~/.hpcflow` when unset; in every case `mkdir` is attempted
exactly when the chosen path is not an existing directory. -/
theorem claim_C9_dir_resolution (isDir : String → Bool) (abs : String → String)
    (envVal : Option String) (home : String) (config_dir : Option String) :
    (∀ d, config_dir = some d → d ≠ "" →
        resolve_config_dir isDir abs envVal home config_dir
          = (abs d, !isDir d)) ∧
    (config_dir = none ∨ config_dir = some "" →
      (∀ e, envVal = some e →
         resolve_config_dir isDir abs envVal home config_dir
           = (abs (expanduser home (pathOf e)),
              !isDir (expanduser home (pathOf e)))) ∧
      (envVal = none →
         resolve_config_dir isDir abs envVal home config_dir
           = (abs (home ++ "/.hpcflow"), !isDir (home ++ "/.hpcflow")))) := by
  have hpath : pathOf "~/.hpcflow" = "~/.hpcflow" := by
    unfold pathOf
    rw [if_neg (by decide)]
  have hexp : expanduser home "~/.hpcflow" = home ++ "/.hpcflow" := by
    unfold expanduser
    rw [if_neg (by decide), if_pos (by decide)]
    exact congrArg (fun t => home ++ t) (by decide)
  constructor
  · intro d hd hne
    subst hd
    unfold resolve_config_dir dirArgFalsy pathOf
    simp [hne]
  · intro hcd
    constructor
    · intro e he
      subst he
      rcases hcd with h | h <;> subst h <;>
        simp [resolve_config_dir, dirArgFalsy]
    · intro he
      subst he
      rcases hcd with h | h <;> subst h <;>
        simp [resolve_config_dir, dirArgFalsy, hpath, hexp]

/-- C9 witness: the three resolution cases at concrete arguments. -/
theorem claim_C9_dir_resolution_witness :
    resolve_config_dir (fun _ => true) (fun p => p) (some "/envdir") "/home/u"
        (some "/mine") = ("/mine", false) ∧
    resolve_config_dir (fun _ => true) (fun p => p) (some "/envdir") "/home/u"
        none = ("/envdir", false) ∧
    resolve_config_dir (fun _ => false) (fun p => p) none "/home/u" none
        = ("/home/u" ++ "/.hpcflow", true) :=
  ⟨(claim_C9_dir_resolution (fun _ => true) (fun p => p) (some "/envdir")
        "/home/u" (some "/mine")).1 "/mine" rfl (by decide),
   ((claim_C9_dir_resolution (fun _ => true) (fun p => p) (some "/envdir")
        "/home/u" none).2 (Or.inl rfl)).1 "/envdir" rfl,
   ((claim_C9_dir_resolution (fun _ => false) (fun p => p) none "/home/u"
        none).2 (Or.inl rfl)).2 rfl⟩

/-- C9 counterexample: an explicitly given empty-string directory argument is
not used; Python truthiness routes resolution to the environment variable
instead (`Path("")` would have been `Path(".")`). -/
theorem claim_C9_counterexample :
    (resolve_config_dir (fun _ => true) (fun p => p) (some "/envdir")
        "/home/u" (some "")).fst = "/envdir" ∧
    pathOf "" ≠ "/envdir" :=
  ⟨rfl, by decide⟩

/-- C1 witness: a failing write during `set_value("log_directory", "out")` on
the concrete store raises `ConfigChangeFileUpdateError` with the store fully
reverted and `get` unchanged. -/
theorem claim_C1_rollback_on_write_failure_witness :
    ∃ s₂, set_value trivialSchemas noJson false sampleStore "log_directory"
            (.vstr "out") false
            = .err s₂ .configChangeFileUpdate ∧ RevertedTo s₂ sampleStore ∧
          get_attr s₂ "log_directory" = get_attr sampleStore "log_directory" :=
  (claim_C1_rollback_on_write_failure trivialSchemas noJson sampleStore
      "log_directory" (.vstr "out") false 0 rfl).1 _ _ rfl

/-- C5 witness: the consistency invariant holds after each of the five
operations on the concrete store. -/
theorem claim_C5_state_consistency_witness :
    StoreInv (set_value trivialSchemas noJson true sampleStore "log_directory"
        (.vstr "out") false).state ∧
    StoreInv (unset_value trivialSchemas true sampleStore
        "log_directory").state ∧
    StoreInv (append_value trivialSchemas noJson true sampleStore
        "log_directory" (.vstr "out") false).state ∧
    StoreInv (prepend_value trivialSchemas noJson true sampleStore
        "log_directory" (.vstr "out") false).state ∧
    StoreInv (pop_value trivialSchemas true sampleStore
        "log_directory" 0).state :=
  claim_C5_state_consistency trivialSchemas noJson true sampleStore
    "log_directory" (.vstr "out") false 0 ⟨fun _ => rfl, fun _ => rfl⟩

end HpcflowConfig
